import Mathlib

/-!
Verification of the resume-analyzer scoring core.

The development shallowly embeds the scoring pipeline of `app.py` and the
LLM-feedback parsing of `src/resume_analyzer.py`:

* texts are Lean `String`s; Python `str.lower`, `str.strip`, `str.split('.')`
  and substring containment (`in`) are modelled by executable functions on
  `List Char`;
* Python floats are modelled by exact rationals `ℚ` (every arithmetic claim
  checked here was confirmed to be float-exact at the relevant values);
* Python `int(x)` is truncation toward zero, `pyTrunc`;
* the `try/except` blocks are modelled with `Except`: the body is a value of
  `Except Unit _` and the wrapper pattern-matches, returning the handler's
  value on `.error`;
* the embedding backend (sentence-transformers model) is external: it is
  modelled as a parameter `sim : String → String → Except Unit ℚ` giving the
  cosine similarity of the embeddings of two text units, or failing — every
  exception of the embedding path (model load, encoding) surfaces there.
-/

namespace ResumeApp

/-- Python `int(q)` on a real value: truncation toward zero. -/
def pyTrunc (q : ℚ) : ℤ :=
  if 0 ≤ q then ⌊q⌋ else ⌈q⌉

/-- Does `needle` occur at the head of `hay`? (`List.isPrefixOf` spelled out
so every string operation of the model is a plain structural recursion.) -/
def matchesAt : List Char → List Char → Bool
  | [], _ => true
  | _ :: _, [] => false
  | a :: as, b :: bs => a == b && matchesAt as bs

/-- Python `needle in hay`: substring containment. -/
def occursIn (needle : List Char) : List Char → Bool
  | [] => matchesAt needle []
  | c :: t => matchesAt needle (c :: t) || occursIn needle t

/-- Python `str.lower()` (ASCII letters; the skill dictionaries are ASCII). -/
def lowerStr (s : String) : String :=
  String.mk (s.toList.map Char.toLower)

/-- Drop leading whitespace characters. -/
def dropWs : List Char → List Char
  | [] => []
  | c :: t => if c.isWhitespace then dropWs t else c :: t

/-- Python `str.strip()`: remove leading and trailing whitespace. -/
def pyStrip (l : List Char) : List Char :=
  ((dropWs l).reverse |> dropWs).reverse

/-- Python `text.split('.')`: the pieces between period characters
(the empty text yields `[[]]`, exactly like Python's `''.split('.') == ['']`). -/
def splitDot : List Char → List (List Char)
  | [] => [[]]
  | c :: t =>
    if c == '.' then [] :: splitDot t
    else
      match splitDot t with
      | [] => [[c]]
      | p :: ps => (c :: p) :: ps

/-- The technical-skill dictionary of `calculate_keyword_fallback_score`
(`app.py` lines 67–75), verbatim and in source order. -/
def technical_skills : List String :=
  ["python", "java", "javascript", "react", "node", "sql", "mongodb", "aws", "docker",
   "kubernetes", "git", "html", "css", "angular", "vue", "php", "c++", "c#", ".net",
   "spring", "django", "flask", "express", "mysql", "postgresql", "redis", "elasticsearch",
   "machine learning", "ai", "data science", "tensorflow", "pytorch", "pandas", "numpy",
   "api", "rest", "graphql", "microservices", "devops", "ci/cd", "jenkins", "terraform",
   "azure", "gcp", "linux", "windows", "android", "ios", "swift", "kotlin", "flutter",
   "blockchain", "solidity", "web3", "rust", "go", "scala", "r", "matlab", "tableau"]

/-- The soft-skill dictionary (`app.py` lines 77–81), verbatim. -/
def soft_skills : List String :=
  ["leadership", "communication", "teamwork", "problem solving", "analytical",
   "project management", "agile", "scrum", "collaboration", "mentoring", "creativity",
   "adaptability", "time management", "critical thinking", "decision making"]

/-- `jd_technical` (`app.py` line 84): dictionary terms occurring in the
lowercased job description. -/
def jd_technical (job_description : String) : List String :=
  technical_skills.filter (fun sk => occursIn sk.toList (lowerStr job_description).toList)

/-- `jd_soft` (`app.py` line 85). -/
def jd_soft (job_description : String) : List String :=
  soft_skills.filter (fun sk => occursIn sk.toList (lowerStr job_description).toList)

/-- `resume_technical` (`app.py` line 88): the job-description-present
technical terms also occurring in the lowercased resume. -/
def resume_technical (resume_text job_description : String) : List String :=
  (jd_technical job_description).filter
    (fun sk => occursIn sk.toList (lowerStr resume_text).toList)

/-- `resume_soft` (`app.py` line 89). -/
def resume_soft (resume_text job_description : String) : List String :=
  (jd_soft job_description).filter
    (fun sk => occursIn sk.toList (lowerStr resume_text).toList)

/-- `technical_score` (`app.py` line 92):
`(len(resume_technical) / max(len(jd_technical), 1)) * 100 if jd_technical else 60`. -/
def technical_score (resume_text job_description : String) : ℚ :=
  if jd_technical job_description = [] then 60
  else ((resume_technical resume_text job_description).length : ℚ) /
        ((max (jd_technical job_description).length 1 : ℕ) : ℚ) * 100

/-- `soft_score` (`app.py` line 93), with empty-set default 70. -/
def soft_score (resume_text job_description : String) : ℚ :=
  if jd_soft job_description = [] then 70
  else ((resume_soft resume_text job_description).length : ℚ) /
        ((max (jd_soft job_description).length 1 : ℕ) : ℚ) * 100

/-- The `try` body of `calculate_keyword_fallback_score` (`app.py` lines
61–98); none of its operations can fail, so it is always `.ok`. -/
def fallbackBody (resume_text job_description : String) : Except Unit ℤ :=
  Except.ok (max 15 (min 90 (pyTrunc
    (technical_score resume_text job_description * (7 / 10) +
     soft_score resume_text job_description * (3 / 10)))))

/-- `calculate_keyword_fallback_score` (`app.py` lines 59–101): the `try`
body, with the `except` handler returning the fixed default 50. -/
def calculate_keyword_fallback_score (resume_text job_description : String) : ℤ :=
  match fallbackBody resume_text job_description with
  | .ok v => v
  | .error _ => 50

/-- Sentence segmentation (`app.py` lines 28–35): split on periods, strip,
keep spans longer than 10 characters; if fewer than 3 remain, fall back to a
single unit holding the whole original text. -/
def segment (text : String) : List String :=
  let parts := ((splitDot text.toList).map (fun l => String.mk (pyStrip l))).filter
    (fun s => 10 < s.length)
  if parts.length < 3 then [text] else parts

/-- `np.max` over one row of the similarity matrix (rows are never empty
because `segment` never returns an empty list). -/
def listMaxQ : List ℚ → ℚ
  | [] => 0
  | h :: t => t.foldl max h

/-- The `try` body of `calculate_semantic_similarity` (`app.py` lines 23–53).
`sim r j` is the cosine similarity of the embeddings of units `r` and `j`;
any embedding-path exception (model load, encoding) surfaces as its
`.error`, which propagates out of the body. -/
def semanticBody (sim : String → String → Except Unit ℚ)
    (resume_text job_description : String) : Except Unit ℤ :=
  match (segment resume_text).mapM
      (fun r => (segment job_description).mapM (fun j => sim r j)) with
  | .error e => .error e
  | .ok M =>
    .ok (max 10 (min 95 (pyTrunc
      ((M.map listMaxQ).sum / ((M.map listMaxQ).length : ℚ) * 100))))

/-- `calculate_semantic_similarity` (`app.py` lines 21–57): the `try` body,
with the `except` handler delegating to the keyword fallback scorer. -/
def calculate_semantic_similarity (sim : String → String → Except Unit ℚ)
    (resume_text job_description : String) : ℤ :=
  match semanticBody sim resume_text job_description with
  | .ok v => v
  | .error _ => calculate_keyword_fallback_score resume_text job_description

/-- The overall similarity in the words of the specification (§4.3 steps
4–5): the arithmetic mean, over resume units, of the maximum similarity of
that unit against all job-description units. -/
def overallSimilarity (sim : String → String → ℚ)
    (resume_text job_description : String) : ℚ :=
  ((segment resume_text).map
    (fun r => listMaxQ ((segment job_description).map (fun j => sim r j)))).sum /
  ((segment resume_text).length : ℚ)

/-- The Excellent-tier result of `get_score_feedback` (`app.py` line 133). -/
def excellentFeedback : String × String × String × String :=
  ("🎉 Excellent match! Your resume aligns very well with this job.",
   "success", "#28a745", "#d4edda")

/-- The Good-tier result (`app.py` line 135). -/
def goodFeedback : String × String × String × String :=
  ("👍 Good match! Consider highlighting relevant skills more prominently.",
   "info", "#17a2b8", "#d1ecf1")

/-- The Moderate-tier result (`app.py` line 137). -/
def moderateFeedback : String × String × String × String :=
  ("⚠️ Moderate match. You may want to tailor your resume for this role.",
   "warning", "#ffc107", "#fff3cd")

/-- The Low-tier result (`app.py` line 139). -/
def lowFeedback : String × String × String × String :=
  ("❌ Low match. Consider significant resume adjustments for this position.",
   "error", "#dc3545", "#f8d7da")

/-- The Very-low-tier result (`app.py` line 141). -/
def veryLowFeedback : String × String × String × String :=
  ("🔴 Very low match. This role may not be suitable or resume needs major updates.",
   "error", "#dc3545", "#f8d7da")

/-- `get_score_feedback` (`app.py` lines 130–141). -/
def get_score_feedback (score : ℤ) : String × String × String × String :=
  if 80 ≤ score then excellentFeedback
  else if 65 ≤ score then goodFeedback
  else if 45 ≤ score then moderateFeedback
  else if 25 ≤ score then lowFeedback
  else veryLowFeedback

/-- Index of the first occurrence of `needle` in a text, if any
(the starting position tried by `re.search` for a literal). -/
def findAt (needle : List Char) : List Char → Option Nat
  | [] => if matchesAt needle [] then some 0 else none
  | c :: t => if matchesAt needle (c :: t) then some 0 else (findAt needle t).map Nat.succ

/-- The characters a lazy `(.+?)` consumes before a lookahead
`(?=nh|$)`: at least one character, then stop as soon as `nh` starts at the
current position, or at end of text. -/
def grabUntil (nh : List Char) : List Char → List Char
  | [] => []
  | c :: t => c :: (if matchesAt nh t then [] else grabUntil nh t)

/-- One regex extraction of `_parse_analysis_result`
(`src/resume_analyzer.py` lines 139–144): `re.search(header(.+?)(?=next|$))`
with `re.DOTALL`, followed by `.group(1).strip()`.  `none` when the header is
absent or is followed by no character at all (the group needs at least one).
A lazy group may also stop just before a trailing newline (`$` semantics);
after `.strip()` that yields the same section, so the model stops only at the
next header or at end of text. -/
def sectionAfter (header : String) (nexth : Option String) (s : String) : Option String :=
  match findAt header.toList s.toList with
  | none => none
  | some i =>
    match s.toList.drop (i + header.toList.length) with
    | [] => none
    | c :: t =>
      match nexth with
      | none => some (String.mk (pyStrip (c :: t)))
      | some nh => some (String.mk (pyStrip (grabUntil nh.toList (c :: t))))

/-- The record returned by `_parse_analysis_result` and `analyze_resume`. -/
structure Analysis where
  skills_match : String
  missing_skills : String
  improvement_tips : String
  overall_score : String
  strengths : String
  weaknesses : String
deriving DecidableEq

/-- `_parse_analysis_result` (`src/resume_analyzer.py` lines 132–164): each
section is extracted by its header, with a per-section default when the
search fails.  The `try` body cannot fail in this model (and its Python
operations cannot raise on string input), so the `except` branch of lines
155–164 is not reachable. -/
def parse_analysis_result (result : String) : Analysis where
  skills_match :=
    (sectionAfter "Skills Match:" (some "Missing Skills:") result).getD "Analysis completed"
  missing_skills :=
    (sectionAfter "Missing Skills:" (some "Improvement Tips:") result).getD "See full analysis"
  improvement_tips :=
    (sectionAfter "Improvement Tips:" (some "Overall Score:") result).getD
      (String.mk (result.toList.take 500))
  overall_score :=
    (sectionAfter "Overall Score:" (some "Strengths:") result).getD "N/A"
  strengths :=
    (sectionAfter "Strengths:" (some "Weaknesses:") result).getD "Analysis completed"
  weaknesses :=
    (sectionAfter "Weaknesses:" none result).getD "See improvement tips"

/-- `analyze_resume` (`src/resume_analyzer.py` lines 95–130): truncate the
resume to 2000 and the job description to 1000 characters, run the LLM chain
(modelled as the parameter `chain`, which may fail with a message), parse the
structured response; on any chain error return the fixed error record. -/
def analyze_resume (chain : String → String → Except String String)
    (resume_text job_description : String) : Analysis :=
  let r := if 2000 < resume_text.length
    then String.mk (resume_text.toList.take 2000) else resume_text
  let j := if 1000 < job_description.length
    then String.mk (job_description.toList.take 1000) else job_description
  match chain r j with
  | .ok result => parse_analysis_result result
  | .error e =>
    { skills_match := "Analysis encountered an error. Please try again."
      missing_skills := "Unable to determine missing skills."
      improvement_tips := "Error during analysis: " ++ e
      overall_score := "N/A"
      strengths := "Analysis incomplete"
      weaknesses := "Analysis incomplete" }

/-! ### Helper lemmas -/

/-- The fallback scorer is its clamped weighted formula (the `try` body
cannot fail). -/
theorem fallback_eq (resume_text job_description : String) :
    calculate_keyword_fallback_score resume_text job_description =
      max 15 (min 90 (pyTrunc
        (technical_score resume_text job_description * (7 / 10) +
         soft_score resume_text job_description * (3 / 10)))) := rfl

/-- Clamping an integer to `[a, b]` lands in `[a, b]`. -/
theorem clamp_mem (a b x : ℤ) (h : a ≤ b) :
    a ≤ max a (min b x) ∧ max a (min b x) ≤ b :=
  ⟨le_max_left _ _, max_le h (min_le_left _ _)⟩

/-- The keyword fallback score always lies in `[15, 90]`. -/
theorem fallback_range (resume_text job_description : String) :
    15 ≤ calculate_keyword_fallback_score resume_text job_description ∧
      calculate_keyword_fallback_score resume_text job_description ≤ 90 := by
  rw [fallback_eq]
  exact clamp_mem 15 90 _ (by norm_num)

/-- A ratio score `(num / max den 1) * 100` with `num ≤ den` lies in
`[0, 100]`. -/
theorem ratio_score_range (num den : ℕ) (h : num ≤ den) :
    0 ≤ ((num : ℚ) / ((max den 1 : ℕ) : ℚ) * 100) ∧
      ((num : ℚ) / ((max den 1 : ℕ) : ℚ) * 100) ≤ 100 := by
  have hd : (1 : ℚ) ≤ ((max den 1 : ℕ) : ℚ) := by exact_mod_cast le_max_right den 1
  have hdpos : (0 : ℚ) < ((max den 1 : ℕ) : ℚ) := lt_of_lt_of_le one_pos hd
  constructor
  · exact mul_nonneg (div_nonneg (Nat.cast_nonneg _) (le_of_lt hdpos)) (by norm_num)
  · have hle : ((num : ℚ) / ((max den 1 : ℕ) : ℚ)) ≤ 1 := by
      rw [div_le_one hdpos]
      exact_mod_cast le_trans h (le_max_left den 1)
    calc (num : ℚ) / ((max den 1 : ℕ) : ℚ) * 100 ≤ 1 * 100 :=
          mul_le_mul_of_nonneg_right hle (by norm_num)
      _ = 100 := by norm_num

/-! ### Claims about the keyword fallback scorer -/

/-- Claim C3: for every pair of input strings the keyword fallback scorer
never raises (its `try` body always yields a value) and returns an integer
in the closed interval `[15, 90]`; the `except` handler of the source,
modelled by the `.error` branch of `calculate_keyword_fallback_score`,
returns the fixed default 50 should the body ever fail. -/
theorem claim_C3 (resume_text job_description : String) :
    (fallbackBody resume_text job_description).isOk = true ∧
      15 ≤ calculate_keyword_fallback_score resume_text job_description ∧
      calculate_keyword_fallback_score resume_text job_description ≤ 90 :=
  ⟨rfl, fallback_range resume_text job_description⟩

/-- `pyTrunc` on a (nonnegative) natural number is that number. -/
theorem pyTrunc_natCast (n : ℕ) : pyTrunc (n : ℚ) = n := by
  rw [pyTrunc, if_pos (Nat.cast_nonneg n)]
  exact Int.floor_natCast n

/-- Claim C4: a job description containing no dictionary term (technical or
soft) as a case-insensitive substring makes the fallback scorer use the
fixed defaults `technical_score = 60` and `soft_score = 70`, and return
exactly `63 = clamp(0.7*60 + 0.3*70, 15, 90)`, for every resume text. -/
theorem claim_C4 (resume_text job_description : String)
    (ht : ∀ t ∈ technical_skills,
      occursIn t.toList (lowerStr job_description).toList = false)
    (hs : ∀ t ∈ soft_skills,
      occursIn t.toList (lowerStr job_description).toList = false) :
    technical_score resume_text job_description = 60 ∧
      soft_score resume_text job_description = 70 ∧
      calculate_keyword_fallback_score resume_text job_description = 63 := by
  have h1 : jd_technical job_description = [] :=
    List.filter_eq_nil_iff.mpr (fun a ha => ne_true_of_eq_false (ht a ha))
  have h2 : jd_soft job_description = [] :=
    List.filter_eq_nil_iff.mpr (fun a ha => ne_true_of_eq_false (hs a ha))
  have e1 : technical_score resume_text job_description = 60 := by
    rw [technical_score, if_pos h1]
  have e2 : soft_score resume_text job_description = 70 := by
    rw [soft_score, if_pos h2]
  refine ⟨e1, e2, ?_⟩
  rw [fallback_eq, e1, e2]
  have : (60 : ℚ) * (7 / 10) + 70 * (3 / 10) = ((63 : ℕ) : ℚ) := by norm_num
  rw [this, pyTrunc_natCast]
  decide

/-- Claim C4 witness: the empty job description has no dictionary term, and
the fallback score there is 63. -/
theorem claim_C4_witness :
    technical_score "any resume" "" = 60 ∧ soft_score "any resume" "" = 70 ∧
      calculate_keyword_fallback_score "any resume" "" = 63 :=
  claim_C4 "any resume" "" (by decide) (by decide)

/-- Claim C5: on the concrete resume/job-description pair of the
specification's test scenario the fallback scorer computes
`technical_score = 100`, `soft_score = 100`, a weighted score of 100, and
returns 90 after clamping to `[15, 90]`. -/
theorem claim_C5 :
    technical_score
        "I have experience with python and react and strong leadership skills."
        "Looking for a python developer with react experience and leadership." = 100 ∧
      soft_score
        "I have experience with python and react and strong leadership skills."
        "Looking for a python developer with react experience and leadership." = 100 ∧
      technical_score
        "I have experience with python and react and strong leadership skills."
        "Looking for a python developer with react experience and leadership." * (7 / 10) +
      soft_score
        "I have experience with python and react and strong leadership skills."
        "Looking for a python developer with react experience and leadership." * (3 / 10) = 100 ∧
      calculate_keyword_fallback_score
        "I have experience with python and react and strong leadership skills."
        "Looking for a python developer with react experience and leadership." = 90 := by
  have hjt : jd_technical
      "Looking for a python developer with react experience and leadership." =
      ["python", "react", "r"] := by decide
  have hjs : jd_soft
      "Looking for a python developer with react experience and leadership." =
      ["leadership"] := by decide
  have hrt : resume_technical
      "I have experience with python and react and strong leadership skills."
      "Looking for a python developer with react experience and leadership." =
      ["python", "react", "r"] := by decide
  have hrs : resume_soft
      "I have experience with python and react and strong leadership skills."
      "Looking for a python developer with react experience and leadership." =
      ["leadership"] := by decide
  have e1 : technical_score
      "I have experience with python and react and strong leadership skills."
      "Looking for a python developer with react experience and leadership." = 100 := by
    rw [technical_score, if_neg (by rw [hjt]; decide), hjt, hrt]
    norm_num
  have e2 : soft_score
      "I have experience with python and react and strong leadership skills."
      "Looking for a python developer with react experience and leadership." = 100 := by
    rw [soft_score, if_neg (by rw [hjs]; decide), hjs, hrs]
    norm_num
  refine ⟨e1, e2, by rw [e1, e2]; norm_num, ?_⟩
  rw [fallback_eq, e1, e2]
  have : (100 : ℚ) * (7 / 10) + 100 * (3 / 10) = ((100 : ℕ) : ℚ) := by norm_num
  rw [this, pyTrunc_natCast]
  decide

/-! ### Claim about the score-to-feedback mapper -/

/-- Claim C7: the score-to-feedback mapper is total on integer scores and
partitions them into five bands with inclusive lower bounds — `≥ 80`
Excellent, `65–79` Good, `45–64` Moderate, `25–44` Low, `< 25` Very low. -/
theorem claim_C7 (score : ℤ) :
    (80 ≤ score → get_score_feedback score = excellentFeedback) ∧
      (65 ≤ score → score ≤ 79 → get_score_feedback score = goodFeedback) ∧
      (45 ≤ score → score ≤ 64 → get_score_feedback score = moderateFeedback) ∧
      (25 ≤ score → score ≤ 44 → get_score_feedback score = lowFeedback) ∧
      (score < 25 → get_score_feedback score = veryLowFeedback) := by
  refine ⟨fun h => ?_, fun h1 h2 => ?_, fun h1 h2 => ?_, fun h1 h2 => ?_, fun h => ?_⟩
  · rw [get_score_feedback, if_pos h]
  · rw [get_score_feedback, if_neg (by omega), if_pos h1]
  · rw [get_score_feedback, if_neg (by omega), if_neg (by omega), if_pos h1]
  · rw [get_score_feedback, if_neg (by omega), if_neg (by omega), if_neg (by omega),
      if_pos h1]
  · rw [get_score_feedback, if_neg (by omega), if_neg (by omega), if_neg (by omega),
      if_neg (by omega)]

/-- Claim C7 witness: the boundary scores 80, 79, 45 and 24 land in the
Excellent, Good, Moderate and Very-low tiers respectively. -/
theorem claim_C7_witness :
    get_score_feedback 80 = excellentFeedback ∧
      get_score_feedback 79 = goodFeedback ∧
      get_score_feedback 45 = moderateFeedback ∧
      get_score_feedback 24 = veryLowFeedback :=
  ⟨(claim_C7 80).1 (by decide),
   (claim_C7 79).2.1 (by decide) (by decide),
   (claim_C7 45).2.2.1 (by decide) (by decide),
   (claim_C7 24).2.2.2.2 (by decide)⟩

/-! ### Claim C10: resume terms are filtered through the job description -/

/-- Claim C10: in the fallback scorer the resume-matched terms are a subset
of the job-description-matched terms of the same dictionary, both partial
scores lie in `[0, 100]`, and two resumes in which exactly the same
job-description-present terms occur receive the same fallback score —
dictionary terms absent from the job description never influence it. -/
theorem claim_C10 (job_description r1 r2 : String) :
    resume_technical r1 job_description ⊆ jd_technical job_description ∧
      resume_soft r1 job_description ⊆ jd_soft job_description ∧
      0 ≤ technical_score r1 job_description ∧
      technical_score r1 job_description ≤ 100 ∧
      0 ≤ soft_score r1 job_description ∧
      soft_score r1 job_description ≤ 100 ∧
      ((∀ t ∈ jd_technical job_description,
          occursIn t.toList (lowerStr r1).toList = occursIn t.toList (lowerStr r2).toList) →
       (∀ t ∈ jd_soft job_description,
          occursIn t.toList (lowerStr r1).toList = occursIn t.toList (lowerStr r2).toList) →
       calculate_keyword_fallback_score r1 job_description =
         calculate_keyword_fallback_score r2 job_description) := by
  refine ⟨fun a ha => List.mem_of_mem_filter ha,
    fun a ha => List.mem_of_mem_filter ha, ?_, ?_, ?_, ?_, ?_⟩
  · rw [technical_score]
    split
    · norm_num
    · exact (ratio_score_range _ _ (List.length_filter_le _ _)).1
  · rw [technical_score]
    split
    · norm_num
    · exact (ratio_score_range _ _ (List.length_filter_le _ _)).2
  · rw [soft_score]
    split
    · norm_num
    · exact (ratio_score_range _ _ (List.length_filter_le _ _)).1
  · rw [soft_score]
    split
    · norm_num
    · exact (ratio_score_range _ _ (List.length_filter_le _ _)).2
  · intro h1 h2
    have et : resume_technical r1 job_description = resume_technical r2 job_description :=
      List.filter_congr (fun a ha => h1 a ha)
    have es : resume_soft r1 job_description = resume_soft r2 job_description :=
      List.filter_congr (fun a ha => h2 a ha)
    rw [fallback_eq, fallback_eq, technical_score, technical_score,
      soft_score, soft_score, et, es]

/-- Claim C10 witness: with the empty job description (no matched terms),
two arbitrary distinct resumes receive the same fallback score. -/
theorem claim_C10_witness :
    calculate_keyword_fallback_score "resume one with sql" "" =
      calculate_keyword_fallback_score "another resume" "" :=
  (claim_C10 "" "resume one with sql" "another resume").2.2.2.2.2.2
    (by decide) (by decide)

/-! ### Claim C6: segmentation -/

/-- Claim C6: segmentation splits on periods, strips whitespace and keeps
only spans longer than 10 characters; whenever fewer than 3 such spans
remain it returns exactly the one-element sequence holding the unmodified
original text (so the empty input yields `[""]`), it never returns an empty
sequence, and — being a total function — it never raises. -/
theorem claim_C6 (text : String) :
    ((((splitDot text.toList).map (fun l => String.mk (pyStrip l))).filter
        (fun s => 10 < s.length)).length < 3 →
      segment text = [text]) ∧
      segment text ≠ [] ∧ segment "" = [""] := by
  refine ⟨fun h => ?_, ?_, rfl⟩
  · rw [segment, if_pos h]
  · rw [segment]
    split
    · exact List.cons_ne_nil _ _
    · intro hnil
      have := List.length_eq_zero.mpr hnil
      omega

/-- Claim C6 witness: a short text with no long span collapses to a single
unit equal to the original text. -/
theorem claim_C6_witness : segment "ab. cd" = ["ab. cd"] :=
  (claim_C6 "ab. cd").1 (by decide)

/-! ### Claims about the semantic similarity path -/

/-- The accumulator loop of `List.mapM`, over `Except`, with a function that
always succeeds. -/
theorem mapM_loop_ok {α β : Type} (f : α → β) (l : List α) (acc : List β) :
    List.mapM.loop (fun a => (Except.ok (f a) : Except Unit β)) l acc =
      Except.ok (acc.reverse ++ l.map f) := by
  induction l generalizing acc with
  | nil => simp [List.mapM.loop, Pure.pure, Except.pure]
  | cons a t ih =>
    simp only [List.mapM.loop, Bind.bind, Except.bind, ih, List.reverse_cons,
      List.map_cons, List.append_assoc, List.cons_append, List.nil_append]

/-- `List.mapM` over `Except` with a function that always succeeds is `.ok`
of the corresponding `List.map`. -/
theorem mapM_ok {α β : Type} (f : α → β) (l : List α) :
    l.mapM (fun a => (Except.ok (f a) : Except Unit β)) = Except.ok (l.map f) := by
  rw [List.mapM]
  simp [mapM_loop_ok]

/-- On an always-successful embedding path the public score is the clamped
truncation of 100 times the overall (row-max mean) similarity. -/
theorem semantic_ok_eq (sim : String → String → ℚ) (resume_text job_description : String) :
    calculate_semantic_similarity (fun a b => Except.ok (sim a b))
        resume_text job_description =
      max 10 (min 95 (pyTrunc (overallSimilarity sim resume_text job_description * 100))) := by
  rw [calculate_semantic_similarity, semanticBody]
  simp only [mapM_ok]
  simp only [List.map_map, Function.comp_def, overallSimilarity, List.length_map]

/-- Claim C1 (amended): on a successful embedding path the semantic score is
`int(overall_similarity * 100)` — truncation toward zero, not rounding —
clamped to `[10, 95]`, where `overall_similarity` is the mean over resume
units of the maximum similarity against all job-description units. -/
theorem claim_C1 (sim : String → String → ℚ) (resume_text job_description : String) :
    calculate_semantic_similarity (fun a b => Except.ok (sim a b))
        resume_text job_description =
      max 10 (min 95 (pyTrunc (overallSimilarity sim resume_text job_description * 100))) :=
  semantic_ok_eq sim resume_text job_description

/-- Claim C1 counterexample: with every similarity equal to 0.678 the code
returns 67 (`int(67.8)` truncates), while the claimed
`round(overall_similarity * 100)` clamped to `[10, 95]` is 68. -/
theorem claim_C1_counterexample :
    calculate_semantic_similarity (fun _ _ => Except.ok ((678 : ℚ) / 1000)) "x" "y" ≠
      max 10 (min 95 (round (overallSimilarity (fun _ _ => (678 : ℚ) / 1000) "x" "y" * 100))) := by
  have hx : segment "x" = ["x"] := rfl
  have hy : segment "y" = ["y"] := rfl
  have hov : overallSimilarity (fun _ _ => (678 : ℚ) / 1000) "x" "y" = 339 / 500 := by
    rw [overallSimilarity, hx, hy]
    simp only [List.map_cons, List.map_nil, listMaxQ, List.foldl_nil, List.sum_cons,
      List.sum_nil, List.length_cons, List.length_nil]
    norm_num
  have hL : calculate_semantic_similarity (fun _ _ => Except.ok ((678 : ℚ) / 1000)) "x" "y"
      = 67 := by
    rw [semantic_ok_eq (fun _ _ => (678 : ℚ) / 1000) "x" "y", hov]
    have h1 : ((339 : ℚ) / 500 * 100) = 339 / 5 := by norm_num
    rw [h1, pyTrunc, if_pos (by norm_num)]
    have h2 : ⌊(339 / 5 : ℚ)⌋ = 67 := by
      rw [Int.floor_eq_iff]
      constructor <;> norm_num
    rw [h2]
    decide
  have hR : max 10 (min 95 (round
      (overallSimilarity (fun _ _ => (678 : ℚ) / 1000) "x" "y" * 100))) = 68 := by
    rw [hov]
    have h1 : ((339 : ℚ) / 500 * 100) = 339 / 5 := by norm_num
    rw [h1, round_eq]
    have h2 : ⌊(339 / 5 : ℚ) + 1 / 2⌋ = 68 := by
      rw [Int.floor_eq_iff]
      constructor <;> norm_num
    rw [h2]
    decide
  rw [hL, hR]
  decide

/-- Claim C2: the public scoring operation is total — every failure of the
embedding path is caught and replaced by the keyword fallback score — and
its result is an integer in `[10, 95]` on the semantic path, contained in
`[15, 90]` whenever the embedding path failed. -/
theorem claim_C2 (sim : String → String → Except Unit ℚ)
    (resume_text job_description : String) :
    10 ≤ calculate_semantic_similarity sim resume_text job_description ∧
      calculate_semantic_similarity sim resume_text job_description ≤ 95 ∧
      ((semanticBody sim resume_text job_description).isOk = false →
        calculate_semantic_similarity sim resume_text job_description =
          calculate_keyword_fallback_score resume_text job_description ∧
        15 ≤ calculate_semantic_similarity sim resume_text job_description ∧
        calculate_semantic_similarity sim resume_text job_description ≤ 90) := by
  rcases h : semanticBody sim resume_text job_description with e | v
  · have hc : calculate_semantic_similarity sim resume_text job_description =
        calculate_keyword_fallback_score resume_text job_description := by
      rw [calculate_semantic_similarity, h]
    have hf := fallback_range resume_text job_description
    rw [hc]
    exact ⟨by omega, by omega, fun _ => ⟨rfl, hf⟩⟩
  · have hc : calculate_semantic_similarity sim resume_text job_description = v := by
      rw [calculate_semantic_similarity, h]
    have hv : 10 ≤ v ∧ v ≤ 95 := by
      rw [semanticBody] at h
      rcases hm : (segment resume_text).mapM
          (fun r => (segment job_description).mapM (fun j => sim r j)) with e' | M
      · rw [hm] at h; exact absurd h (by simp)
      · rw [hm] at h
        have hinj : v = max 10 (min 95 _) := ((Except.ok.injEq _ _).mp h).symm
        rw [hinj]
        exact clamp_mem 10 95 _ (by norm_num)
    rw [hc]
    exact ⟨hv.1, hv.2, fun hbad => by
      simp [Except.isOk, Except.toBool] at hbad⟩

/-- Claim C2 witness: with an embedding backend that always fails, the
public operation returns the fallback score, inside `[15, 90]`. -/
theorem claim_C2_witness :
    calculate_semantic_similarity (fun _ _ => Except.error ()) "some resume" "some jd" =
        calculate_keyword_fallback_score "some resume" "some jd" ∧
      15 ≤ calculate_semantic_similarity (fun _ _ => Except.error ()) "some resume" "some jd" ∧
      calculate_semantic_similarity (fun _ _ => Except.error ()) "some resume" "some jd" ≤ 90 :=
  (claim_C2 (fun _ _ => Except.error ()) "some resume" "some jd").2.2 rfl

/-! ### Claims about the LLM feedback parser and `analyze_resume` -/

/-- Claim C8 counterexample: the default for the improvement-tips section is
`result[:500]`, which depends on the input — two texts both lacking the
`Improvement Tips:` header parse to different section values, so the default
is not a fixed value. -/
theorem claim_C8_counterexample :
    findAt "Improvement Tips:".toList "first raw text".toList = none ∧
      findAt "Improvement Tips:".toList "second raw text".toList = none ∧
      (parse_analysis_result "first raw text").improvement_tips = "first raw text" ∧
      (parse_analysis_result "second raw text").improvement_tips = "second raw text" ∧
      (parse_analysis_result "first raw text").improvement_tips ≠
        (parse_analysis_result "second raw text").improvement_tips := by
  refine ⟨rfl, rfl, rfl, rfl, ?_⟩
  decide

/-- Claim C8 (amended): for every input string the section parser returns a
record with all six sections and never raises; a section whose header is
found is the stripped content between the header and the next header or the
end of text, and a section whose header is missing or unmatched is replaced
by a named default — the fixed strings "Analysis completed",
"See full analysis", "N/A", "Analysis completed" and "See improvement tips"
for five of the sections, and the first 500 characters of the raw text for
the improvement-tips section. -/
theorem claim_C8 (result : String) :
    (∀ c, sectionAfter "Skills Match:" (some "Missing Skills:") result = some c →
      (parse_analysis_result result).skills_match = c) ∧
    (sectionAfter "Skills Match:" (some "Missing Skills:") result = none →
      (parse_analysis_result result).skills_match = "Analysis completed") ∧
    (∀ c, sectionAfter "Missing Skills:" (some "Improvement Tips:") result = some c →
      (parse_analysis_result result).missing_skills = c) ∧
    (sectionAfter "Missing Skills:" (some "Improvement Tips:") result = none →
      (parse_analysis_result result).missing_skills = "See full analysis") ∧
    (∀ c, sectionAfter "Improvement Tips:" (some "Overall Score:") result = some c →
      (parse_analysis_result result).improvement_tips = c) ∧
    (sectionAfter "Improvement Tips:" (some "Overall Score:") result = none →
      (parse_analysis_result result).improvement_tips =
        String.mk (result.toList.take 500)) ∧
    (∀ c, sectionAfter "Overall Score:" (some "Strengths:") result = some c →
      (parse_analysis_result result).overall_score = c) ∧
    (sectionAfter "Overall Score:" (some "Strengths:") result = none →
      (parse_analysis_result result).overall_score = "N/A") ∧
    (∀ c, sectionAfter "Strengths:" (some "Weaknesses:") result = some c →
      (parse_analysis_result result).strengths = c) ∧
    (sectionAfter "Strengths:" (some "Weaknesses:") result = none →
      (parse_analysis_result result).strengths = "Analysis completed") ∧
    (∀ c, sectionAfter "Weaknesses:" none result = some c →
      (parse_analysis_result result).weaknesses = c) ∧
    (sectionAfter "Weaknesses:" none result = none →
      (parse_analysis_result result).weaknesses = "See improvement tips") := by
  refine ⟨fun c h => ?_, fun h => ?_, fun c h => ?_, fun h => ?_, fun c h => ?_, fun h => ?_,
    fun c h => ?_, fun h => ?_, fun c h => ?_, fun h => ?_, fun c h => ?_, fun h => ?_⟩ <;>
    simp [parse_analysis_result, h]

/-- Claim C8 witness: on a text with no headers at all, the missing-header
defaults are returned. -/
theorem claim_C8_witness :
    (parse_analysis_result "no headers here").skills_match = "Analysis completed" ∧
      (parse_analysis_result "no headers here").overall_score = "N/A" ∧
      (parse_analysis_result "no headers here").improvement_tips =
        String.mk ("no headers here".toList.take 500) :=
  ⟨(claim_C8 "no headers here").2.1 rfl,
   (claim_C8 "no headers here").2.2.2.2.2.2.2.1 rfl,
   (claim_C8 "no headers here").2.2.2.2.2.1 rfl⟩

/-- Truncating two texts that agree on their first `n` characters yields the
same text. -/
theorem truncAgree (s1 s2 : String) (n : ℕ)
    (h : s1.toList.take n = s2.toList.take n) :
    (if n < s1.length then String.mk (s1.toList.take n) else s1) =
      (if n < s2.length then String.mk (s2.toList.take n) else s2) := by
  have hlen1 : s1.length = s1.toList.length := rfl
  have hlen2 : s2.length = s2.toList.length := rfl
  have heta1 : String.mk s1.toList = s1 := rfl
  have heta2 : String.mk s2.toList = s2 := rfl
  by_cases h1 : n < s1.length <;> by_cases h2 : n < s2.length
  · rw [if_pos h1, if_pos h2, h]
  · rw [if_pos h1, if_neg h2]
    have : s2.toList.take n = s2.toList :=
      List.take_of_length_le (by rw [← hlen2]; omega)
    rw [h, this, heta2]
  · rw [if_neg h1, if_pos h2]
    have : s1.toList.take n = s1.toList :=
      List.take_of_length_le (by rw [← hlen1]; omega)
    rw [← h, this, heta1]
  · rw [if_neg h1, if_neg h2]
    have e1 : s1.toList.take n = s1.toList :=
      List.take_of_length_le (by rw [← hlen1]; omega)
    have e2 : s2.toList.take n = s2.toList :=
      List.take_of_length_le (by rw [← hlen2]; omega)
    rw [← heta1, ← heta2, ← e1, ← e2, h]

/-- Claim C9: `analyze_resume` depends only on the first 2000 characters of
the resume and the first 1000 characters of the job description — for any
two inputs agreeing on those prefixes it passes identical truncated inputs
to the analysis chain and, with the same chain behaviour, produces identical
results. -/
theorem claim_C9 (chain : String → String → Except String String)
    (r1 r2 j1 j2 : String)
    (hr : r1.toList.take 2000 = r2.toList.take 2000)
    (hj : j1.toList.take 1000 = j2.toList.take 1000) :
    analyze_resume chain r1 j1 = analyze_resume chain r2 j2 := by
  rw [analyze_resume, analyze_resume, truncAgree r1 r2 2000 hr, truncAgree j1 j2 1000 hj]

/-- Claim C9 witness: two different 2001-character resumes that agree on
their first 2000 characters are analyzed identically, even by a chain that
echoes the resume it receives. -/
theorem claim_C9_witness :
    analyze_resume (fun r _ => Except.ok r)
        (String.mk (List.replicate 2000 'a' ++ ['b'])) "jd" =
      analyze_resume (fun r _ => Except.ok r)
        (String.mk (List.replicate 2000 'a' ++ ['c'])) "jd" :=
  claim_C9 (fun r _ => Except.ok r)
    (String.mk (List.replicate 2000 'a' ++ ['b']))
    (String.mk (List.replicate 2000 'a' ++ ['c'])) "jd" "jd"
    (by rw [show (String.mk (List.replicate 2000 'a' ++ ['b'])).toList =
          List.replicate 2000 'a' ++ ['b'] from rfl,
        show (String.mk (List.replicate 2000 'a' ++ ['c'])).toList =
          List.replicate 2000 'a' ++ ['c'] from rfl,
        List.take_left' (List.length_replicate 2000 'a'),
        List.take_left' (List.length_replicate 2000 'a')]) rfl

end ResumeApp
